import Mathlib

/-!
Shallow embedding of `src/retrieval_graph/configuration.py`: the
`IndexConfiguration` and `Configuration` dataclasses and their
`__post_init__` environment-defaulting passes, together with theorems
settling the specified configuration contract.

The process environment is modelled as a total lookup function
`String → Option String` (`os.environ.get k` returns `some v` when the
variable `k` is set, `none` otherwise). Dataclass construction with
keyword-only optional arguments is modelled by an argument record of
`Option` fields: `none` means the caller omitted the field, `some v`
means the caller supplied `v` explicitly; construction fills omitted
fields with the built-in defaults and then runs the `__post_init__`
defaulting pass, exactly as Python's generated `__init__` does.
-/

namespace RetrievalGraph

/-- The process environment: `os.environ.get` as a lookup function. -/
abbrev Env := String → Option String

/-- Python's `os.environ.get(key, default)`. -/
def Env.getD (env : Env) (key default : String) : String :=
  (env key).getD default

/-- Modelled from the spec: the string constant `RESPONSE_SYSTEM_PROMPT` of the
external `retrieval_graph.prompts` module, which is not among the sources; the
spec treats it as a fixed built-in prompt string whose content is irrelevant to
the configuration contract. -/
def RESPONSE_SYSTEM_PROMPT : String := "RESPONSE_SYSTEM_PROMPT"

/-- Modelled from the spec: the string constant `QUERY_SYSTEM_PROMPT` of the
external `retrieval_graph.prompts` module, which is not among the sources; the
spec treats it as a fixed built-in prompt string whose content is irrelevant to
the configuration contract. -/
def QUERY_SYSTEM_PROMPT : String := "QUERY_SYSTEM_PROMPT"

/-- The `IndexConfiguration` dataclass: configuration for indexing and
retrieval operations. `search_kwargs` (`dict[str, Any]` in the source) is
modelled as an association list, treated as opaque pass-through data. -/
structure IndexConfiguration where
  user_id : String
  embedding_model : String
  retriever_provider : String
  search_kwargs : List (String × String)
  deriving Repr, DecidableEq

/-- `IndexConfiguration.__post_init__`: populate fields from environment
variables if not already set (i.e. still equal to the built-in default;
for `user_id`, still falsy, i.e. the empty string). -/
def IndexConfiguration.postInit (env : Env) (c : IndexConfiguration) :
    IndexConfiguration :=
  let c := if c.user_id = "" then
    { c with user_id := Env.getD env "USER_ID" "" } else c
  let c := if c.embedding_model = "openai/text-embedding-3-small" then
    { c with embedding_model :=
        Env.getD env "EMBEDDING_MODEL" "openai/text-embedding-3-small" } else c
  if c.retriever_provider = "elastic" then
    { c with retriever_provider := Env.getD env "RETRIEVER_PROVIDER" "elastic" }
  else c

/-- The keyword-only arguments of `IndexConfiguration(...)`: `none` is an
omitted field, `some v` an explicitly supplied one. -/
structure IndexArgs where
  user_id : Option String := none
  embedding_model : Option String := none
  retriever_provider : Option String := none
  search_kwargs : Option (List (String × String)) := none
  deriving Repr, DecidableEq

/-- Constructing `IndexConfiguration(**args)` under environment `env`:
the generated `__init__` fills omitted fields with the built-in defaults
(the `field(default=...)` literals, `dict()` for `search_kwargs`) and then
runs `__post_init__`. -/
def mkIndexConfiguration (env : Env) (a : IndexArgs) : IndexConfiguration :=
  IndexConfiguration.postInit env
    { user_id := a.user_id.getD ""
      embedding_model := a.embedding_model.getD "openai/text-embedding-3-small"
      retriever_provider := a.retriever_provider.getD "elastic"
      search_kwargs := a.search_kwargs.getD [] }

/-- The `Configuration` dataclass: extends `IndexConfiguration` with
agent-facing prompt and model fields. -/
structure Configuration extends IndexConfiguration where
  response_system_prompt : String
  response_model : String
  query_system_prompt : String
  query_model : String
  deriving Repr, DecidableEq

/-- `Configuration.__post_init__`: call the parent's `__post_init__` first,
then populate `response_model` and `query_model` from environment variables
if still equal to their built-in defaults. -/
def Configuration.postInit (env : Env) (c : Configuration) : Configuration :=
  let c := { c with
    toIndexConfiguration := IndexConfiguration.postInit env c.toIndexConfiguration }
  let c := if c.response_model = "anthropic/claude-3-5-sonnet-20240620" then
    { c with response_model :=
        Env.getD env "RESPONSE_MODEL" "anthropic/claude-3-5-sonnet-20240620" } else c
  if c.query_model = "anthropic/claude-3-haiku-20240307" then
    { c with query_model :=
        Env.getD env "QUERY_MODEL" "anthropic/claude-3-haiku-20240307" }
  else c

/-- The keyword-only arguments of `Configuration(...)`. -/
structure ConfigArgs where
  user_id : Option String := none
  embedding_model : Option String := none
  retriever_provider : Option String := none
  search_kwargs : Option (List (String × String)) := none
  response_system_prompt : Option String := none
  response_model : Option String := none
  query_system_prompt : Option String := none
  query_model : Option String := none
  deriving Repr, DecidableEq

/-- Constructing `Configuration(**args)` under environment `env`: the
generated `__init__` fills omitted fields with the built-in defaults and
then runs `Configuration.__post_init__`. -/
def mkConfiguration (env : Env) (a : ConfigArgs) : Configuration :=
  Configuration.postInit env
    { user_id := a.user_id.getD ""
      embedding_model := a.embedding_model.getD "openai/text-embedding-3-small"
      retriever_provider := a.retriever_provider.getD "elastic"
      search_kwargs := a.search_kwargs.getD []
      response_system_prompt := a.response_system_prompt.getD RESPONSE_SYSTEM_PROMPT
      response_model := a.response_model.getD "anthropic/claude-3-5-sonnet-20240620"
      query_system_prompt := a.query_system_prompt.getD QUERY_SYSTEM_PROMPT
      query_model := a.query_model.getD "anthropic/claude-3-haiku-20240307" }

/-- Closed-form characterization of `IndexConfiguration.postInit`: the three
defaulting branches are independent, each reading only the field it writes. -/
lemma IndexConfiguration.postInit_eq (env : Env) (c : IndexConfiguration) :
    IndexConfiguration.postInit env c =
      { user_id := if c.user_id = "" then Env.getD env "USER_ID" "" else c.user_id
        embedding_model := if c.embedding_model = "openai/text-embedding-3-small"
          then Env.getD env "EMBEDDING_MODEL" "openai/text-embedding-3-small"
          else c.embedding_model
        retriever_provider := if c.retriever_provider = "elastic"
          then Env.getD env "RETRIEVER_PROVIDER" "elastic"
          else c.retriever_provider
        search_kwargs := c.search_kwargs } := by
  unfold IndexConfiguration.postInit
  by_cases h1 : c.user_id = "" <;>
    by_cases h2 : c.embedding_model = "openai/text-embedding-3-small" <;>
      by_cases h3 : c.retriever_provider = "elastic" <;>
        simp [h1, h2, h3]

/-- Closed-form characterization of `Configuration.postInit`: base fields are
resolved by the parent pass, then the two model fields independently. -/
lemma Configuration.postInit_expand (env : Env) (c : Configuration) :
    Configuration.postInit env c =
      { toIndexConfiguration := IndexConfiguration.postInit env c.toIndexConfiguration
        response_system_prompt := c.response_system_prompt
        response_model := if c.response_model = "anthropic/claude-3-5-sonnet-20240620"
          then Env.getD env "RESPONSE_MODEL" "anthropic/claude-3-5-sonnet-20240620"
          else c.response_model
        query_system_prompt := c.query_system_prompt
        query_model := if c.query_model = "anthropic/claude-3-haiku-20240307"
          then Env.getD env "QUERY_MODEL" "anthropic/claude-3-haiku-20240307"
          else c.query_model } := by
  unfold Configuration.postInit
  by_cases h1 : c.response_model = "anthropic/claude-3-5-sonnet-20240620" <;>
    by_cases h2 : c.query_model = "anthropic/claude-3-haiku-20240307" <;>
      simp [h1, h2]

/-- C1: constructing `Configuration` with all five environment-bound fields
explicitly supplied with strings differing from their built-in defaults
(`user_id` non-empty) yields exactly those strings, under any environment. -/
theorem Configuration_explicit_overrides_env (env : Env) (a : ConfigArgs)
    (u em rp rm qm : String)
    (hu : u ≠ "") (hem : em ≠ "openai/text-embedding-3-small")
    (hrp : rp ≠ "elastic")
    (hrm : rm ≠ "anthropic/claude-3-5-sonnet-20240620")
    (hqm : qm ≠ "anthropic/claude-3-haiku-20240307") :
    (mkConfiguration env { a with user_id := some u, embedding_model := some em, retriever_provider := some rp, response_model := some rm, query_model := some qm }).user_id = u ∧
    (mkConfiguration env { a with user_id := some u, embedding_model := some em, retriever_provider := some rp, response_model := some rm, query_model := some qm }).embedding_model = em ∧
    (mkConfiguration env { a with user_id := some u, embedding_model := some em, retriever_provider := some rp, response_model := some rm, query_model := some qm }).retriever_provider = rp ∧
    (mkConfiguration env { a with user_id := some u, embedding_model := some em, retriever_provider := some rp, response_model := some rm, query_model := some qm }).response_model = rm ∧
    (mkConfiguration env { a with user_id := some u, embedding_model := some em, retriever_provider := some rp, response_model := some rm, query_model := some qm }).query_model = qm := by
  simp [mkConfiguration, Configuration.postInit_expand, IndexConfiguration.postInit_eq,
    hu, hem, hrp, hrm, hqm]

/-- Witness for C1 at concrete inputs, under an environment that sets all
five variables to different values. -/
theorem Configuration_explicit_overrides_env_witness :
    (mkConfiguration
      (fun k => if k = "USER_ID" then some "env_user" else some "env_other")
      { user_id := some "explicit_user", embedding_model := some "openai/text-embedding-ada-002", retriever_provider := some "pinecone", response_model := some "anthropic/claude-3-opus-20240229", query_model := some "anthropic/claude-3-sonnet-20240229" }).user_id
      = "explicit_user" ∧
    (mkConfiguration
      (fun k => if k = "USER_ID" then some "env_user" else some "env_other")
      { user_id := some "explicit_user", embedding_model := some "openai/text-embedding-ada-002", retriever_provider := some "pinecone", response_model := some "anthropic/claude-3-opus-20240229", query_model := some "anthropic/claude-3-sonnet-20240229" }).embedding_model
      = "openai/text-embedding-ada-002" ∧
    (mkConfiguration
      (fun k => if k = "USER_ID" then some "env_user" else some "env_other")
      { user_id := some "explicit_user", embedding_model := some "openai/text-embedding-ada-002", retriever_provider := some "pinecone", response_model := some "anthropic/claude-3-opus-20240229", query_model := some "anthropic/claude-3-sonnet-20240229" }).retriever_provider
      = "pinecone" ∧
    (mkConfiguration
      (fun k => if k = "USER_ID" then some "env_user" else some "env_other")
      { user_id := some "explicit_user", embedding_model := some "openai/text-embedding-ada-002", retriever_provider := some "pinecone", response_model := some "anthropic/claude-3-opus-20240229", query_model := some "anthropic/claude-3-sonnet-20240229" }).response_model
      = "anthropic/claude-3-opus-20240229" ∧
    (mkConfiguration
      (fun k => if k = "USER_ID" then some "env_user" else some "env_other")
      { user_id := some "explicit_user", embedding_model := some "openai/text-embedding-ada-002", retriever_provider := some "pinecone", response_model := some "anthropic/claude-3-opus-20240229", query_model := some "anthropic/claude-3-sonnet-20240229" }).query_model
      = "anthropic/claude-3-sonnet-20240229" :=
  Configuration_explicit_overrides_env
    (fun k => if k = "USER_ID" then some "env_user" else some "env_other") {}
    "explicit_user" "openai/text-embedding-ada-002" "pinecone"
    "anthropic/claude-3-opus-20240229" "anthropic/claude-3-sonnet-20240229"
    (by decide) (by decide) (by decide) (by decide) (by decide)

/-- C2: when all five environment variables are set, default construction of
`Configuration` (no explicit fields) yields each field equal to its
environment variable's value. -/
theorem Configuration_env_populates_defaults (env : Env) (u em rp rm qm : String)
    (hu : env "USER_ID" = some u)
    (hem : env "EMBEDDING_MODEL" = some em)
    (hrp : env "RETRIEVER_PROVIDER" = some rp)
    (hrm : env "RESPONSE_MODEL" = some rm)
    (hqm : env "QUERY_MODEL" = some qm) :
    (mkConfiguration env {}).user_id = u ∧
    (mkConfiguration env {}).embedding_model = em ∧
    (mkConfiguration env {}).retriever_provider = rp ∧
    (mkConfiguration env {}).response_model = rm ∧
    (mkConfiguration env {}).query_model = qm := by
  simp [mkConfiguration, Configuration.postInit_expand, IndexConfiguration.postInit_eq,
    Env.getD, hu, hem, hrp, hrm, hqm]

/-- Witness for C2 at the environment used by the repository's unit test. -/
theorem Configuration_env_populates_defaults_witness :
    (mkConfiguration
      (fun k => if k = "USER_ID" then some "env_user"
        else if k = "EMBEDDING_MODEL" then some "cohere/embed-english-v3.0"
        else if k = "RETRIEVER_PROVIDER" then some "mongodb"
        else if k = "RESPONSE_MODEL" then some "openai/gpt-4"
        else if k = "QUERY_MODEL" then some "openai/gpt-3.5-turbo"
        else none) {}).user_id = "env_user" ∧
    (mkConfiguration
      (fun k => if k = "USER_ID" then some "env_user"
        else if k = "EMBEDDING_MODEL" then some "cohere/embed-english-v3.0"
        else if k = "RETRIEVER_PROVIDER" then some "mongodb"
        else if k = "RESPONSE_MODEL" then some "openai/gpt-4"
        else if k = "QUERY_MODEL" then some "openai/gpt-3.5-turbo"
        else none) {}).embedding_model = "cohere/embed-english-v3.0" ∧
    (mkConfiguration
      (fun k => if k = "USER_ID" then some "env_user"
        else if k = "EMBEDDING_MODEL" then some "cohere/embed-english-v3.0"
        else if k = "RETRIEVER_PROVIDER" then some "mongodb"
        else if k = "RESPONSE_MODEL" then some "openai/gpt-4"
        else if k = "QUERY_MODEL" then some "openai/gpt-3.5-turbo"
        else none) {}).retriever_provider = "mongodb" ∧
    (mkConfiguration
      (fun k => if k = "USER_ID" then some "env_user"
        else if k = "EMBEDDING_MODEL" then some "cohere/embed-english-v3.0"
        else if k = "RETRIEVER_PROVIDER" then some "mongodb"
        else if k = "RESPONSE_MODEL" then some "openai/gpt-4"
        else if k = "QUERY_MODEL" then some "openai/gpt-3.5-turbo"
        else none) {}).response_model = "openai/gpt-4" ∧
    (mkConfiguration
      (fun k => if k = "USER_ID" then some "env_user"
        else if k = "EMBEDDING_MODEL" then some "cohere/embed-english-v3.0"
        else if k = "RETRIEVER_PROVIDER" then some "mongodb"
        else if k = "RESPONSE_MODEL" then some "openai/gpt-4"
        else if k = "QUERY_MODEL" then some "openai/gpt-3.5-turbo"
        else none) {}).query_model = "openai/gpt-3.5-turbo" :=
  Configuration_env_populates_defaults _
    "env_user" "cohere/embed-english-v3.0" "mongodb" "openai/gpt-4"
    "openai/gpt-3.5-turbo" (by decide) (by decide) (by decide) (by decide) (by decide)

/-- C4: when none of the five environment variables is set, default
construction of `Configuration` yields exactly the built-in defaults. -/
theorem Configuration_all_defaults (env : Env)
    (hu : env "USER_ID" = none)
    (hem : env "EMBEDDING_MODEL" = none)
    (hrp : env "RETRIEVER_PROVIDER" = none)
    (hrm : env "RESPONSE_MODEL" = none)
    (hqm : env "QUERY_MODEL" = none) :
    (mkConfiguration env {}).user_id = "" ∧
    (mkConfiguration env {}).embedding_model = "openai/text-embedding-3-small" ∧
    (mkConfiguration env {}).retriever_provider = "elastic" ∧
    (mkConfiguration env {}).response_model = "anthropic/claude-3-5-sonnet-20240620" ∧
    (mkConfiguration env {}).query_model = "anthropic/claude-3-haiku-20240307" := by
  simp [mkConfiguration, Configuration.postInit_expand, IndexConfiguration.postInit_eq,
    Env.getD, hu, hem, hrp, hrm, hqm]

/-- Witness for C4 at the empty environment. -/
theorem Configuration_all_defaults_witness :
    (mkConfiguration (fun _ => none) {}).user_id = "" ∧
    (mkConfiguration (fun _ => none) {}).embedding_model
      = "openai/text-embedding-3-small" ∧
    (mkConfiguration (fun _ => none) {}).retriever_provider = "elastic" ∧
    (mkConfiguration (fun _ => none) {}).response_model
      = "anthropic/claude-3-5-sonnet-20240620" ∧
    (mkConfiguration (fun _ => none) {}).query_model
      = "anthropic/claude-3-haiku-20240307" :=
  Configuration_all_defaults (fun _ => none) rfl rfl rfl rfl rfl

/-- C7: `IndexConfiguration` alone, constructed with no explicit fields in an
environment setting `USER_ID`, `EMBEDDING_MODEL`, `RETRIEVER_PROVIDER`, yields
each of its three environment-bound fields equal to its environment value. -/
theorem IndexConfiguration_env_populates_defaults (env : Env) (u em rp : String)
    (hu : env "USER_ID" = some u)
    (hem : env "EMBEDDING_MODEL" = some em)
    (hrp : env "RETRIEVER_PROVIDER" = some rp) :
    (mkIndexConfiguration env {}).user_id = u ∧
    (mkIndexConfiguration env {}).embedding_model = em ∧
    (mkIndexConfiguration env {}).retriever_provider = rp := by
  simp [mkIndexConfiguration, IndexConfiguration.postInit_eq, Env.getD,
    hu, hem, hrp]

/-- Witness for C7 at the environment used by the repository's unit test. -/
theorem IndexConfiguration_env_populates_defaults_witness :
    (mkIndexConfiguration
      (fun k => if k = "USER_ID" then some "index_user"
        else if k = "EMBEDDING_MODEL" then some "cohere/embed-english-v3.0"
        else if k = "RETRIEVER_PROVIDER" then some "mongodb"
        else none) {}).user_id = "index_user" ∧
    (mkIndexConfiguration
      (fun k => if k = "USER_ID" then some "index_user"
        else if k = "EMBEDDING_MODEL" then some "cohere/embed-english-v3.0"
        else if k = "RETRIEVER_PROVIDER" then some "mongodb"
        else none) {}).embedding_model = "cohere/embed-english-v3.0" ∧
    (mkIndexConfiguration
      (fun k => if k = "USER_ID" then some "index_user"
        else if k = "EMBEDDING_MODEL" then some "cohere/embed-english-v3.0"
        else if k = "RETRIEVER_PROVIDER" then some "mongodb"
        else none) {}).retriever_provider = "mongodb" :=
  IndexConfiguration_env_populates_defaults _
    "index_user" "cohere/embed-english-v3.0" "mongodb"
    (by decide) (by decide) (by decide)

/-- Provenance of one environment-bound field: the result is the explicit
value, the environment value, or the built-in default; the explicit value
prevails whenever it differs from the built-in default literal; the
environment value prevails over the default whenever the constructed value
equals the default literal. -/
def fieldResolution (env : Env) (key explicitVal default result : String) : Prop :=
  (result = explicitVal ∨ (∃ w, env key = some w ∧ result = w) ∨ result = default) ∧
  (explicitVal ≠ default → result = explicitVal) ∧
  (explicitVal = default → ∀ w, env key = some w → result = w)

/-- The defaulting branch `if v = d then env.getD key d else v` satisfies
`fieldResolution`. -/
lemma fieldResolution_ite (env : Env) (key d v : String) :
    fieldResolution env key v d (if v = d then Env.getD env key d else v) := by
  unfold fieldResolution Env.getD
  by_cases h : v = d
  · subst h
    simp only [if_pos rfl]
    refine ⟨?_, fun hne => absurd rfl hne, fun _ w hw => by simp [hw]⟩
    cases hw : env key with
    | none => exact Or.inr (Or.inr (by simp [hw]))
    | some w => exact Or.inr (Or.inl ⟨w, rfl, by simp [hw]⟩)
  · rw [if_neg h]
    exact ⟨Or.inl rfl, fun _ => rfl, fun hvd => absurd hvd h⟩

/-- C3: for each environment-bound field taken separately, in any environment
where that field's own variable is set (the others arbitrary), explicitly
supplying the built-in default literal results in the environment value; and
under any environment whatsoever, the construction with an explicit default
literal is identical (as a whole object) to the one where the field was
omitted. -/
theorem Configuration_explicit_default_env_wins (env : Env) (a : ConfigArgs) :
    (∀ u, env "USER_ID" = some u →
      (mkConfiguration env { a with user_id := some "" }).user_id = u) ∧
    (∀ em, env "EMBEDDING_MODEL" = some em →
      (mkConfiguration env { a with embedding_model := some "openai/text-embedding-3-small" }).embedding_model = em) ∧
    (∀ rp, env "RETRIEVER_PROVIDER" = some rp →
      (mkConfiguration env { a with retriever_provider := some "elastic" }).retriever_provider = rp) ∧
    (∀ rm, env "RESPONSE_MODEL" = some rm →
      (mkConfiguration env { a with response_model := some "anthropic/claude-3-5-sonnet-20240620" }).response_model = rm) ∧
    (∀ qm, env "QUERY_MODEL" = some qm →
      (mkConfiguration env { a with query_model := some "anthropic/claude-3-haiku-20240307" }).query_model = qm) ∧
    mkConfiguration env { a with user_id := some "" }
      = mkConfiguration env { a with user_id := none } ∧
    mkConfiguration env { a with embedding_model := some "openai/text-embedding-3-small" }
      = mkConfiguration env { a with embedding_model := none } ∧
    mkConfiguration env { a with retriever_provider := some "elastic" }
      = mkConfiguration env { a with retriever_provider := none } ∧
    mkConfiguration env { a with response_model := some "anthropic/claude-3-5-sonnet-20240620" }
      = mkConfiguration env { a with response_model := none } ∧
    mkConfiguration env { a with query_model := some "anthropic/claude-3-haiku-20240307" }
      = mkConfiguration env { a with query_model := none } := by
  refine ⟨fun u hu => ?_, fun em hem => ?_, fun rp hrp => ?_, fun rm hrm => ?_,
    fun qm hqm => ?_, rfl, rfl, rfl, rfl, rfl⟩
  · simp [mkConfiguration, Configuration.postInit_expand,
      IndexConfiguration.postInit_eq, Env.getD, hu]
  · simp [mkConfiguration, Configuration.postInit_expand,
      IndexConfiguration.postInit_eq, Env.getD, hem]
  · simp [mkConfiguration, Configuration.postInit_expand,
      IndexConfiguration.postInit_eq, Env.getD, hrp]
  · simp [mkConfiguration, Configuration.postInit_expand,
      IndexConfiguration.postInit_eq, Env.getD, hrm]
  · simp [mkConfiguration, Configuration.postInit_expand,
      IndexConfiguration.postInit_eq, Env.getD, hqm]

/-- Witness for C3: each field exercised under an environment that sets only
that field's own variable. -/
theorem Configuration_explicit_default_env_wins_witness :
    (mkConfiguration (fun k => if k = "USER_ID" then some "env_user" else none)
      { user_id := some "" }).user_id = "env_user" ∧
    (mkConfiguration
      (fun k => if k = "EMBEDDING_MODEL" then some "cohere/embed-english-v3.0" else none)
      { embedding_model := some "openai/text-embedding-3-small" }).embedding_model
      = "cohere/embed-english-v3.0" ∧
    (mkConfiguration (fun k => if k = "RETRIEVER_PROVIDER" then some "mongodb" else none)
      { retriever_provider := some "elastic" }).retriever_provider = "mongodb" ∧
    (mkConfiguration (fun k => if k = "RESPONSE_MODEL" then some "openai/gpt-4" else none)
      { response_model := some "anthropic/claude-3-5-sonnet-20240620" }).response_model
      = "openai/gpt-4" ∧
    (mkConfiguration (fun k => if k = "QUERY_MODEL" then some "openai/gpt-3.5-turbo" else none)
      { query_model := some "anthropic/claude-3-haiku-20240307" }).query_model
      = "openai/gpt-3.5-turbo" :=
  ⟨(Configuration_explicit_default_env_wins
      (fun k => if k = "USER_ID" then some "env_user" else none) {}).1
      "env_user" (by decide),
   (Configuration_explicit_default_env_wins
      (fun k => if k = "EMBEDDING_MODEL" then some "cohere/embed-english-v3.0" else none)
      {}).2.1 "cohere/embed-english-v3.0" (by decide),
   (Configuration_explicit_default_env_wins
      (fun k => if k = "RETRIEVER_PROVIDER" then some "mongodb" else none) {}).2.2.1
      "mongodb" (by decide),
   (Configuration_explicit_default_env_wins
      (fun k => if k = "RESPONSE_MODEL" then some "openai/gpt-4" else none) {}).2.2.2.1
      "openai/gpt-4" (by decide),
   (Configuration_explicit_default_env_wins
      (fun k => if k = "QUERY_MODEL" then some "openai/gpt-3.5-turbo" else none)
      {}).2.2.2.2.1 "openai/gpt-3.5-turbo" (by decide)⟩

/-- C5: the `user_id` rule, for any starting record of either class: an empty
`user_id` is replaced by the `USER_ID` environment value (empty string when
unset), a non-empty one is kept; and an explicitly supplied empty `user_id`
constructs the very same object as an omitted one. -/
theorem user_id_empty_reads_env (env : Env) (c : IndexConfiguration)
    (c' : Configuration) (a : ConfigArgs) :
    (IndexConfiguration.postInit env c).user_id
      = (if c.user_id = "" then Env.getD env "USER_ID" "" else c.user_id) ∧
    (Configuration.postInit env c').user_id
      = (if c'.user_id = "" then Env.getD env "USER_ID" "" else c'.user_id) ∧
    mkConfiguration env { a with user_id := some "" }
      = mkConfiguration env { a with user_id := none } := by
  refine ⟨?_, ?_, rfl⟩ <;>
    simp [Configuration.postInit_expand, IndexConfiguration.postInit_eq]

/-- C8: `search_kwargs`, `response_system_prompt` and `query_system_prompt`
are never populated from the environment: each equals the explicit value when
supplied and the built-in default otherwise, identically under any two
environments. -/
theorem non_env_fields_unaffected (env env₂ : Env) (a : ConfigArgs) :
    (mkConfiguration env a).search_kwargs = a.search_kwargs.getD [] ∧
    (mkConfiguration env a).response_system_prompt
      = a.response_system_prompt.getD RESPONSE_SYSTEM_PROMPT ∧
    (mkConfiguration env a).query_system_prompt
      = a.query_system_prompt.getD QUERY_SYSTEM_PROMPT ∧
    (mkConfiguration env a).search_kwargs = (mkConfiguration env₂ a).search_kwargs ∧
    (mkConfiguration env a).response_system_prompt
      = (mkConfiguration env₂ a).response_system_prompt ∧
    (mkConfiguration env a).query_system_prompt
      = (mkConfiguration env₂ a).query_system_prompt := by
  simp [mkConfiguration, Configuration.postInit_expand, IndexConfiguration.postInit_eq]

/-- C9: construction is a total function (the source has no raise path), and a
`retriever_provider` string outside the `Literal` enumeration is retained
unchanged, whether supplied explicitly (to either class) or through the
`RETRIEVER_PROVIDER` environment variable. -/
theorem invalid_provider_retained (env : Env) (a : ConfigArgs) (s : String)
    (hs : s ∉ ["elastic", "elastic-local", "pinecone", "mongodb"]) :
    (mkConfiguration env { a with retriever_provider := some s }).retriever_provider = s ∧
    (mkIndexConfiguration env { retriever_provider := some s }).retriever_provider = s ∧
    (env "RETRIEVER_PROVIDER" = some s →
      (mkConfiguration env { a with retriever_provider := none }).retriever_provider = s) := by
  simp only [List.mem_cons, List.mem_singleton, not_or] at hs
  refine ⟨?_, ?_, fun h => ?_⟩
  · simp [mkConfiguration, Configuration.postInit_expand,
      IndexConfiguration.postInit_eq, hs.1]
  · simp [mkIndexConfiguration, IndexConfiguration.postInit_eq, hs.1]
  · simp [mkConfiguration, Configuration.postInit_expand,
      IndexConfiguration.postInit_eq, Env.getD, h]

/-- Witness for C9 at a provider string outside the enumeration. -/
theorem invalid_provider_retained_witness :
    (mkConfiguration (fun k => if k = "RETRIEVER_PROVIDER" then some "chromadb" else none)
      { retriever_provider := some "chromadb" }).retriever_provider = "chromadb" ∧
    (mkIndexConfiguration (fun k => if k = "RETRIEVER_PROVIDER" then some "chromadb" else none)
      { retriever_provider := some "chromadb" }).retriever_provider = "chromadb" ∧
    ((fun k => if k = "RETRIEVER_PROVIDER" then some "chromadb" else none) "RETRIEVER_PROVIDER"
        = some "chromadb" →
      (mkConfiguration (fun k => if k = "RETRIEVER_PROVIDER" then some "chromadb" else none)
        { retriever_provider := none }).retriever_provider = "chromadb") :=
  invalid_provider_retained
    (fun k => if k = "RETRIEVER_PROVIDER" then some "chromadb" else none) {}
    "chromadb" (by decide)

/-- C10: the base fields of `Configuration` resolve exactly as an
`IndexConfiguration` constructed from the same base arguments under the same
environment: the subclass pass delegates to the base pass first and never
touches base fields afterwards. -/
theorem Configuration_base_agrees_with_IndexConfiguration (env : Env) (a : ConfigArgs) :
    (mkConfiguration env a).toIndexConfiguration
      = mkIndexConfiguration env
          { user_id := a.user_id, embedding_model := a.embedding_model,
            retriever_provider := a.retriever_provider,
            search_kwargs := a.search_kwargs } := by
  simp [mkConfiguration, mkIndexConfiguration, Configuration.postInit_expand]

/-- C6 counterexample: explicit values do NOT always take precedence over the
environment. Here the caller explicitly supplies `embedding_model` with the
default literal while `EMBEDDING_MODEL` is set to a different string: the
constructed field holds the environment value, not the supplied one. -/
theorem Configuration_explicit_precedence_fails :
    ConfigArgs.embedding_model { embedding_model := some "openai/text-embedding-3-small" }
      = some "openai/text-embedding-3-small" ∧
    (mkConfiguration
      (fun k => if k = "EMBEDDING_MODEL" then some "cohere/embed-english-v3.0" else none)
      { embedding_model := some "openai/text-embedding-3-small" }).embedding_model
      = "cohere/embed-english-v3.0" ∧
    (mkConfiguration
      (fun k => if k = "EMBEDDING_MODEL" then some "cohere/embed-english-v3.0" else none)
      { embedding_model := some "openai/text-embedding-3-small" }).embedding_model
      ≠ "openai/text-embedding-3-small" := by
  refine ⟨rfl, ?_, ?_⟩ <;>
    simp [mkConfiguration, Configuration.postInit_expand, IndexConfiguration.postInit_eq,
      Env.getD]

/-- C6 as amended: after any construction of `Configuration`, every field
holds the explicit value, the environment value, or the built-in default;
the explicit value takes precedence over the environment whenever it differs
from the built-in default literal (for `user_id`, whenever non-empty), the
environment value takes precedence over the built-in default whenever the
constructed value equals the default literal, and the three fields without an
environment binding always hold the explicit value or the built-in default. -/
theorem Configuration_value_provenance (env : Env) (a : ConfigArgs) :
    fieldResolution env "USER_ID" (a.user_id.getD "") ""
      (mkConfiguration env a).user_id ∧
    fieldResolution env "EMBEDDING_MODEL"
      (a.embedding_model.getD "openai/text-embedding-3-small")
      "openai/text-embedding-3-small" (mkConfiguration env a).embedding_model ∧
    fieldResolution env "RETRIEVER_PROVIDER" (a.retriever_provider.getD "elastic")
      "elastic" (mkConfiguration env a).retriever_provider ∧
    fieldResolution env "RESPONSE_MODEL"
      (a.response_model.getD "anthropic/claude-3-5-sonnet-20240620")
      "anthropic/claude-3-5-sonnet-20240620" (mkConfiguration env a).response_model ∧
    fieldResolution env "QUERY_MODEL"
      (a.query_model.getD "anthropic/claude-3-haiku-20240307")
      "anthropic/claude-3-haiku-20240307" (mkConfiguration env a).query_model ∧
    (mkConfiguration env a).search_kwargs = a.search_kwargs.getD [] ∧
    (mkConfiguration env a).response_system_prompt
      = a.response_system_prompt.getD RESPONSE_SYSTEM_PROMPT ∧
    (mkConfiguration env a).query_system_prompt
      = a.query_system_prompt.getD QUERY_SYSTEM_PROMPT := by
  have h1 : (mkConfiguration env a).user_id
      = (if a.user_id.getD "" = "" then Env.getD env "USER_ID" ""
         else a.user_id.getD "") := by
    simp [mkConfiguration, Configuration.postInit_expand, IndexConfiguration.postInit_eq]
  have h2 : (mkConfiguration env a).embedding_model
      = (if a.embedding_model.getD "openai/text-embedding-3-small"
            = "openai/text-embedding-3-small"
         then Env.getD env "EMBEDDING_MODEL" "openai/text-embedding-3-small"
         else a.embedding_model.getD "openai/text-embedding-3-small") := by
    simp [mkConfiguration, Configuration.postInit_expand, IndexConfiguration.postInit_eq]
  have h3 : (mkConfiguration env a).retriever_provider
      = (if a.retriever_provider.getD "elastic" = "elastic"
         then Env.getD env "RETRIEVER_PROVIDER" "elastic"
         else a.retriever_provider.getD "elastic") := by
    simp [mkConfiguration, Configuration.postInit_expand, IndexConfiguration.postInit_eq]
  have h4 : (mkConfiguration env a).response_model
      = (if a.response_model.getD "anthropic/claude-3-5-sonnet-20240620"
            = "anthropic/claude-3-5-sonnet-20240620"
         then Env.getD env "RESPONSE_MODEL" "anthropic/claude-3-5-sonnet-20240620"
         else a.response_model.getD "anthropic/claude-3-5-sonnet-20240620") := by
    simp [mkConfiguration, Configuration.postInit_expand, IndexConfiguration.postInit_eq]
  have h5 : (mkConfiguration env a).query_model
      = (if a.query_model.getD "anthropic/claude-3-haiku-20240307"
            = "anthropic/claude-3-haiku-20240307"
         then Env.getD env "QUERY_MODEL" "anthropic/claude-3-haiku-20240307"
         else a.query_model.getD "anthropic/claude-3-haiku-20240307") := by
    simp [mkConfiguration, Configuration.postInit_expand, IndexConfiguration.postInit_eq]
  refine ⟨?_, ?_, ?_, ?_, ?_, ?_, ?_, ?_⟩
  · rw [h1]; exact fieldResolution_ite env "USER_ID" "" (a.user_id.getD "")
  · rw [h2]
    exact fieldResolution_ite env "EMBEDDING_MODEL" "openai/text-embedding-3-small"
      (a.embedding_model.getD "openai/text-embedding-3-small")
  · rw [h3]
    exact fieldResolution_ite env "RETRIEVER_PROVIDER" "elastic"
      (a.retriever_provider.getD "elastic")
  · rw [h4]
    exact fieldResolution_ite env "RESPONSE_MODEL" "anthropic/claude-3-5-sonnet-20240620"
      (a.response_model.getD "anthropic/claude-3-5-sonnet-20240620")
  · rw [h5]
    exact fieldResolution_ite env "QUERY_MODEL" "anthropic/claude-3-haiku-20240307"
      (a.query_model.getD "anthropic/claude-3-haiku-20240307")
  · simp [mkConfiguration, Configuration.postInit_expand, IndexConfiguration.postInit_eq]
  · simp [mkConfiguration, Configuration.postInit_expand, IndexConfiguration.postInit_eq]
  · simp [mkConfiguration, Configuration.postInit_expand, IndexConfiguration.postInit_eq]

/-- Witness for the amended C6 at a concrete environment and argument set. -/
theorem Configuration_value_provenance_witness :
    fieldResolution (fun k => if k = "USER_ID" then some "env_user" else none)
      "USER_ID" "" ""
      (mkConfiguration (fun k => if k = "USER_ID" then some "env_user" else none)
        {}).user_id :=
  (Configuration_value_provenance
    (fun k => if k = "USER_ID" then some "env_user" else none) {}).1

end RetrievalGraph
